import Mathlib

/-! Verification development for the car-sprite builder of `src/game/src/render/car.rs`
(repository `phimuemue/abstreet`).

The builder consumes a `DrawCarInput` (centerline path, status, vehicle kind,
optional pending turn, optional label) and produces the drawable geometry for one
car for one frame.  The geometry library (`geom`), the simulation types (`sim`),
the map types (`map_model`) and the helpers (`crate::helpers`, `ezgui`) are not
part of the excerpted sources; they are modelled from the specification as a free
(symbolic) geometry over exact rationals.  Rust panics (`unreachable!`, `unwrap`)
are modelled by `Option`: a construction that panics returns `none`.
-/

namespace AbStreet

/-- Modelled from the spec: distances (length-units, i.e. meters) are exact rationals. -/
abbrev Distance := ℚ

/-- Modelled from the spec: an identifier of a turn in the map (`map_model::TurnID`). -/
abbrev TurnID := ℕ

/-- Modelled from the spec: an abstract centerline path handed over by the simulation,
identified by `uid` and carrying its total length.  The metric itself lives in the
missing `geom` library, so the length is abstract data here. -/
structure BasePath where
  uid : ℕ
  len : ℚ
deriving DecidableEq

/-- Modelled from the spec: a heading.  Headings arise as the local heading of a path
at a distance along it, or by rotating another heading by some degrees; the model keeps
them symbolic. -/
inductive Angle where
  | zero
  | headingAt (p : BasePath) (d : ℚ)
  | rotate_degs (a : Angle) (degs : ℚ)
deriving DecidableEq

/-- Modelled from the spec: a 2D point.  Points arise as raw coordinates, as the
position at a distance along a path, or by projecting an existing point away by a
distance at a heading; the model keeps them symbolic. -/
inductive Pt2D where
  | raw (x y : ℚ)
  | onPath (p : BasePath) (d : ℚ)
  | project_away (pt : Pt2D) (dist : ℚ) (a : Angle)
deriving DecidableEq

/-- Modelled from the spec: a polyline: an abstract base path from the simulation, a
polyline built from an explicit point list (`PolyLine::new`), or a slice of another
polyline between two distances. -/
inductive PolyLine where
  | base (p : BasePath)
  | new (pts : List Pt2D)
  | sliced (pl : PolyLine) (a b : ℚ)
deriving DecidableEq

/-- Modelled from the spec: the total length of a path.  A slice `[a, b]` has length
`b - a`; an explicit point list has no metric in the model. -/
def PolyLine.length : PolyLine → ℚ
  | .base p => p.len
  | .new _ => 0
  | .sliced _ a b => b - a

/-- Modelled from the spec: slicing a path between two distances.  The edge-case
rule (implementers must clamp the slice to `[0, len]`) is built in: the bounds are
clamped into `[0, length]` and ordered, so a degenerate request yields a zero-length
slice instead of a panic. -/
def PolyLine.exact_slice (pl : PolyLine) (a b : ℚ) : PolyLine :=
  let hi := max 0 (min b pl.length)
  let lo := min (max 0 a) hi
  PolyLine.sliced pl lo hi

/-- Modelled from the spec: position and heading at a distance along a path.  Per the
degeneracy rule of the spec (geometric degeneracy recovered locally, never surfaced),
the distance is clamped into `[0, length]`. -/
def PolyLine.dist_along : PolyLine → ℚ → Pt2D × Angle
  | .base p, d =>
      let c := min (max d 0) (max p.len 0)
      (.onPath p c, .headingAt p c)
  | .new pts, _ => (pts.headD (.raw 0 0), .zero)
  | .sliced q a b, d =>
      let c := min (max d 0) (max (b - a) 0)
      q.dist_along (a + c)

/-- Modelled from the spec: whether a polyline is geometrically degenerate (path too short): an explicit point list with fewer than two points or with two coinciding
leading points, or a path of no positive length. -/
def PolyLine.is_degenerate : PolyLine → Bool
  | .new [] => true
  | .new [_] => true
  | .new (p :: q :: _) => decide (p = q)
  | pl => decide (pl.length ≤ 0)

/-- Modelled from the spec: the polygon of the missing `geom` library, kept symbolic:
a constant-width thick line swept along a polyline (`make_polygons`), an explicit
point-list polygon (`Polygon::new`), a geometric union, an arrow (`make_arrow`), or a
thickened boundary ribbon (`to_thick_boundary`). -/
inductive Polygon where
  | thick (pl : PolyLine) (width : ℚ)
  | new (pts : List Pt2D)
  | union (a b : Polygon)
  | arrow (pl : PolyLine) (thickness : ℚ)
  | ribbon (pl : PolyLine) (width thickness : ℚ)
deriving DecidableEq

/-- Modelled from the spec: sweeping a constant-width shape along a polyline
(a stadium/rectangle shape of the given width). -/
def PolyLine.make_polygons (pl : PolyLine) (width : ℚ) : Polygon :=
  Polygon.thick pl width

/-- Modelled from the spec: arrow construction is fallible; it fails exactly on a
degenerate line. -/
def PolyLine.make_arrow (pl : PolyLine) (thickness : ℚ) : Option Polygon :=
  if pl.is_degenerate then none else some (Polygon.arrow pl thickness)

/-- Modelled from the spec: the thickened boundary ribbon of a path; it fails (`none`)
when the operation is geometrically degenerate, e.g. the path is too short. -/
def PolyLine.to_thick_boundary (pl : PolyLine) (width thickness : ℚ) : Option Polygon :=
  if pl.is_degenerate then none else some (Polygon.ribbon pl width thickness)

/-- Modelled from the spec: a color.  Named palette entries, raw rgb, hex literals and
faded colors are kept symbolic so that distinct constructions are distinguishable. -/
inductive Color where
  | rgb (r g b : ℕ)
  | hex (s : String)
  | fade (c : Color) (factor : ℚ)
  | palette (i : ℕ)
deriving DecidableEq

/-- Modelled from the spec: a stable hash of the agent id selecting from a fixed palette;
the palette size is abstracted as 10. -/
def rotating_color_agents (n : ℕ) : Color :=
  Color.palette (n % 10)

/-- Modelled from the spec: the idempotent color-scheme registry, read as a total
lookup from color names.  Registration is insert-if-absent and first-definition-wins,
so within one build the registry behaves as a pre-populated map and the insertions are
not observable; they are elided. -/
def ColorScheme := String → Color

/-- Modelled from the spec: look a named color up, registering the default if absent
(the registry is read as already populated). -/
def ColorScheme.get_def (cs : ColorScheme) (name : String) (_c : Color) : Color :=
  cs name

/-- Modelled from the spec: look a previously registered named color up. -/
def ColorScheme.get (cs : ColorScheme) (name : String) : Color :=
  cs name

/-- Modelled from the spec: the car-valid and pedestrian-only turn kinds
(`map_model::TurnType`). -/
inductive TurnType where
  | Crosswalk
  | SharedSidewalkCorner
  | Straight
  | Left
  | Right
  | LaneChangeLeft
  | LaneChangeRight
deriving DecidableEq

/-- Modelled from the spec: a turn of the map; only its kind is consulted here. -/
structure Turn where
  turn_type : TurnType

/-- Modelled from the spec: the map, consulted only to resolve turn ids. -/
structure Map where
  turns : TurnID → Turn

def Map.get_t (m : Map) (t : TurnID) : Turn :=
  m.turns t

/-- Modelled from the spec: the vehicle-kind tag `{Car, Bus, ...}`. -/
inductive VehicleType where
  | Car
  | Bus
  | Bike
deriving DecidableEq

/-- Modelled from the spec: the status enum `{Moving, Parked}`. -/
inductive CarStatus where
  | Moving
  | Parked
deriving DecidableEq

/-- Modelled from the spec: `sim::CarID` is a numeric id paired with the vehicle kind
(the Rust tuple fields `.0` and `.1`). -/
structure CarID where
  idx : ℕ
  vehicle_type : VehicleType
deriving DecidableEq

/-- Modelled from the spec: the map object the car is currently on; only its draw-order
priority is consulted. -/
structure Traversable where
  zorder : ℤ

def Traversable.get_zorder (tr : Traversable) (_m : Map) : ℤ :=
  tr.zorder

/-- Modelled from the spec: the per-agent pose record produced by the simulation each
frame (`sim::DrawCarInput`). -/
structure DrawCarInput where
  id : CarID
  body : PolyLine
  waiting_for_turn : Option TurnID
  status : CarStatus
  label : Option String
  «on» : Traversable

/-- A prepared text label (`ezgui::Text`, modelled from the spec: styled text with a
constant accent color and fixed font size). -/
structure Text where
  line : String
  fg : Color
  size : ℕ
deriving DecidableEq

/-- One item of a geometry batch: a colored polygon, or an svg icon placed at the
center of a polygon (the model records the polygon whose center is used, the scale and
the rotation). -/
inductive BatchItem where
  | poly (c : Color) (p : Polygon)
  | svg (file : String) (center_of : Polygon) (scale : ℚ) (rot : Angle)
deriving DecidableEq

/-- A geometry batch (`ezgui::GeomBatch`): the ordered list of pushed items. -/
abbrev GeomBatch := List BatchItem

/-- The GPU-upload context; uploading is modelled as the identity on batches. -/
structure Prerender

def Prerender.upload (_pr : Prerender) (b : GeomBatch) : GeomBatch :=
  b

/-- The constant `CAR_WIDTH` of `render/car.rs`: 1.75 meters. -/
def CAR_WIDTH : Distance := 7 / 4

/-- The helper `thick_line_from_angle` of `render/car.rs`: project the start point away
to get the second endpoint and sweep a thick line along the two-point polyline. -/
def thick_line_from_angle (thickness line_length : Distance) (pt : Pt2D) (angle : Angle) :
    Polygon :=
  let pt2 := pt.project_away line_length angle
  (PolyLine.new [pt, pt2]).make_polygons thickness

/-- The helper `zoomed_color_car` of `render/car.rs`: buses get the constant bus color;
otherwise moving cars get the per-identity rotating color and parked cars the same
color faded by 1.5. -/
def zoomed_color_car (input : DrawCarInput) (cs : ColorScheme) : Color :=
  if input.id.vehicle_type = VehicleType.Bus then
    cs.get_def ("bus") (Color.rgb 50 133 117)
  else
    match input.status with
    | CarStatus.Moving => rotating_color_agents input.id.idx
    | CarStatus.Parked => (rotating_color_agents input.id.idx).fade (3 / 2)

/-- The `body_polygon` block of `DrawCar::new` (`render/car.rs` lines 23-40): slice the
last 1.0 meter off as the nose, sweep the rest as a thick line, and union it with the
4-point nose quadrilateral (half-width offsets at the boundary point, quarter-width
offsets at the tip). -/
def car_body_polygon (body : PolyLine) : Polygon :=
  let len := body.length
  let front_corner := len - 1
  let thick_line := (body.exact_slice 0 front_corner).make_polygons CAR_WIDTH
  let corner := body.dist_along front_corner
  let tip := body.dist_along len
  let front := Polygon.new [
    corner.1.project_away (CAR_WIDTH / 2) (corner.2.rotate_degs 90),
    corner.1.project_away (CAR_WIDTH / 2) (corner.2.rotate_degs (-90)),
    tip.1.project_away (CAR_WIDTH / 4) (tip.2.rotate_degs (-90)),
    tip.1.project_away (CAR_WIDTH / 4) (tip.2.rotate_degs 90)]
  Polygon.union front thick_line

/-- The sprite produced by the builder (`struct DrawCar`). -/
structure DrawCar where
  id : CarID
  body : PolyLine
  body_polygon : Polygon
  zorder : ℤ
  label : Option Text
  draw_default : GeomBatch
deriving DecidableEq

/-- The builder `DrawCar::new` of `render/car.rs`.  The batch is built in source order: body
polygon, parked icon, turn arrow, brake light.  The Rust panics are modelled by
`none`: the `unreachable!` on the pedestrian-only turn kinds `Crosswalk` and
`SharedSidewalkCorner`, and the `.unwrap()` on the fallible arrow construction. -/
def DrawCar.new (input : DrawCarInput) (map : Map) (pr : Prerender) (cs : ColorScheme) :
    Option DrawCar :=
  let body_polygon := car_body_polygon input.body
  let batch1 : GeomBatch :=
    [BatchItem.poly (zoomed_color_car input cs) body_polygon] ++
      (if input.status = CarStatus.Parked then
        [BatchItem.svg ("assets/map/parked_car.svg") body_polygon (1 / 100) Angle.zero]
      else [])
  let arrow_len := (4 / 5) * CAR_WIDTH
  let arrow_thickness : Distance := 1 / 2
  let batch2 : Option GeomBatch :=
    match input.waiting_for_turn with
    | none => some batch1
    | some t =>
      let withArrow : Option GeomBatch :=
        match (map.get_t t).turn_type with
        | TurnType.Left | TurnType.LaneChangeLeft =>
          let pa := input.body.dist_along (input.body.length - 5 / 2)
          ((PolyLine.new [
              pa.1.project_away (arrow_len / 2) (pa.2.rotate_degs 90),
              pa.1.project_away (arrow_len / 2) (pa.2.rotate_degs (-90))]).make_arrow
            arrow_thickness).map
            (fun arr =>
              batch1 ++
                [BatchItem.poly (cs.get_def ("turn arrow") (Color.hex ("#DF8C3D"))) arr])
        | TurnType.Right | TurnType.LaneChangeRight =>
          let pa := input.body.dist_along (input.body.length - 5 / 2)
          ((PolyLine.new [
              pa.1.project_away (arrow_len / 2) (pa.2.rotate_degs (-90)),
              pa.1.project_away (arrow_len / 2) (pa.2.rotate_degs 90)]).make_arrow
            arrow_thickness).map
            (fun arr =>
              batch1 ++ [BatchItem.poly (cs.get ("turn arrow")) arr])
        | TurnType.Straight => some batch1
        | TurnType.Crosswalk | TurnType.SharedSidewalkCorner => none
      -- Always draw the brake light
      withArrow.map (fun b =>
        let pb := input.body.dist_along (1 / 2)
        let window_length_gap : Distance := 1 / 5
        let window_thickness : Distance := 3 / 10
        b ++
          [BatchItem.poly (cs.get_def ("brake light") (Color.hex ("#FF1300")))
            (thick_line_from_angle window_thickness (CAR_WIDTH - window_length_gap * 2)
              (pb.1.project_away (CAR_WIDTH / 2 - window_length_gap)
                (pb.2.rotate_degs (-90)))
              (pb.2.rotate_degs 90))])
  batch2.map (fun b =>
    { id := input.id
      body := input.body
      body_polygon := body_polygon
      zorder := input.«on».get_zorder map
      label := input.label.map (fun l => { line := l, fg := Color.rgb 249 206 24, size := 20 })
      draw_default := pr.upload b })

/-- Modelled from the spec: the renderable-object identifier (`helpers::ID`); only the
car variant is relevant here. -/
inductive ID where
  | Car (c : CarID)
deriving DecidableEq

/-- The method `Renderable::get_id` for `DrawCar`. -/
def DrawCar.get_id (car : DrawCar) : ID :=
  ID.Car car.id

/-- Modelled from the spec: the per-frame draw options; only the optional per-object
color override is consulted here. -/
structure DrawOptions where
  color : ID → Option Color

/-- One drawing command issued to the graphics context (`ezgui::GfxCtx`). -/
inductive DrawCmd where
  | draw_polygon (c : Color) (p : Polygon)
  | redraw (d : GeomBatch)
  | draw_text_at_mapspace (t : Text) (pt : Pt2D)
deriving DecidableEq

/-- The label-drawing tail of `Renderable::draw`: the label, if present, is drawn at
the point 9.0 meters along the body. -/
def label_cmds (car : DrawCar) : List DrawCmd :=
  match car.label with
  | some txt => [DrawCmd.draw_text_at_mapspace txt (car.body.dist_along 9).1]
  | none => []

/-- The method `Renderable::draw` for `DrawCar`: with a color override only the body polygon is
drawn in that color, otherwise the prepared default batch is redrawn; the label, if
present, is drawn either way. -/
def DrawCar.draw (car : DrawCar) (opts : DrawOptions) : List DrawCmd :=
  (match opts.color car.get_id with
    | some color => [DrawCmd.draw_polygon color car.body_polygon]
    | none => [DrawCmd.redraw car.draw_default]) ++
  label_cmds car

/-- The constant `OUTLINE_THICKNESS` of `render/mod.rs` (not under `src/`); its value
is immaterial to the claims, modelled as 0.5. -/
def OUTLINE_THICKNESS : Distance := 1 / 2

/-- The method `Renderable::get_outline` for `DrawCar`: the thickened boundary ribbon of the body
path, falling back to the filled body polygon when the thickening fails. -/
def DrawCar.get_outline (car : DrawCar) (_m : Map) : Polygon :=
  (car.body.to_thick_boundary CAR_WIDTH OUTLINE_THICKNESS).getD car.body_polygon

/-- The method `Renderable::get_zorder` for `DrawCar`. -/
def DrawCar.get_zorder (car : DrawCar) : ℤ :=
  car.zorder

/-- Whether a batch item is a turn arrow: the only arrow-shaped item ever pushed. -/
def BatchItem.is_arrow : BatchItem → Bool
  | .poly _ (.arrow _ _) => true
  | _ => false

/-- Whether a batch item is the brake light: the only bare thick line over an explicit
two-point polyline ever pushed (the body thick line sits inside a union). -/
def BatchItem.is_brake_light : BatchItem → Bool
  | .poly _ (.thick (.new _) _) => true
  | _ => false

/-- Whether the sprite built for an input carries a turn-arrow decoration (false when
construction aborts). -/
def has_turn_arrow (input : DrawCarInput) (map : Map) (pr : Prerender) (cs : ColorScheme) :
    Bool :=
  match DrawCar.new input map pr cs with
  | some d => d.draw_default.any BatchItem.is_arrow
  | none => false

/-- Whether the sprite built for an input carries a brake-light decoration (false when
construction aborts). -/
def has_brake_light (input : DrawCarInput) (map : Map) (pr : Prerender) (cs : ColorScheme) :
    Bool :=
  match DrawCar.new input map pr cs with
  | some d => d.draw_default.any BatchItem.is_brake_light
  | none => false

/-- The two endpoints of an arrow line, offset at opposite rotations of one heading,
are distinct, so `make_arrow` succeeds on the line through them (+90 then -90). -/
theorem make_arrow_pos_neg (pt : Pt2D) (l : ℚ) (a : Angle) (th : ℚ) :
    (PolyLine.new [pt.project_away l (a.rotate_degs 90),
      pt.project_away l (a.rotate_degs (-90))]).make_arrow th =
    some (Polygon.arrow (PolyLine.new [pt.project_away l (a.rotate_degs 90),
      pt.project_away l (a.rotate_degs (-90))]) th) := by
  have hne : pt.project_away l (a.rotate_degs 90) ≠ pt.project_away l (a.rotate_degs (-90)) := by
    intro hcon
    injection hcon with h1 h2 h3
    injection h3 with h4 h5
    norm_num at h5
  simp [PolyLine.make_arrow, PolyLine.is_degenerate, hne]

/-- The mirrored arrow line (-90 then +90) is likewise non-degenerate. -/
theorem make_arrow_neg_pos (pt : Pt2D) (l : ℚ) (a : Angle) (th : ℚ) :
    (PolyLine.new [pt.project_away l (a.rotate_degs (-90)),
      pt.project_away l (a.rotate_degs 90)]).make_arrow th =
    some (Polygon.arrow (PolyLine.new [pt.project_away l (a.rotate_degs (-90)),
      pt.project_away l (a.rotate_degs 90)]) th) := by
  have hne : pt.project_away l (a.rotate_degs (-90)) ≠ pt.project_away l (a.rotate_degs 90) := by
    intro hcon
    injection hcon with h1 h2 h3
    injection h3 with h4 h5
    norm_num at h5
  simp [PolyLine.make_arrow, PolyLine.is_degenerate, hne]

/-- Whatever branches `DrawCar::new` takes, the `body_polygon` field of a successfully
built sprite is the body-polygon block applied to the input path. -/
theorem new_body_polygon (input : DrawCarInput) (map : Map) (pr : Prerender)
    (cs : ColorScheme) (d : DrawCar) (h : DrawCar.new input map pr cs = some d) :
    d.body_polygon = car_body_polygon input.body := by
  unfold DrawCar.new at h
  rcases Option.map_eq_some'.mp h with ⟨b, hb, hd⟩
  subst hd
  rfl

/-- Construction succeeds whenever the pending turn, if any, is of a car-valid kind. -/
theorem new_isSome_of_valid (input : DrawCarInput) (map : Map) (pr : Prerender)
    (cs : ColorScheme)
    (hvalid : ∀ t, input.waiting_for_turn = some t →
      (map.get_t t).turn_type ≠ TurnType.Crosswalk ∧
      (map.get_t t).turn_type ≠ TurnType.SharedSidewalkCorner) :
    (DrawCar.new input map pr cs).isSome = true := by
  cases hw : input.waiting_for_turn with
  | none => simp [DrawCar.new, hw]
  | some t =>
    obtain ⟨h1, h2⟩ := hvalid t hw
    cases htt : (map.get_t t).turn_type
    case Crosswalk => exact absurd htt h1
    case SharedSidewalkCorner => exact absurd htt h2
    all_goals
      simp [DrawCar.new, hw, htt, make_arrow_pos_neg, make_arrow_neg_pos]

/-- The length of a slice between two stored bounds. -/
theorem length_sliced (pl : PolyLine) (a b : ℚ) :
    (PolyLine.sliced pl a b).length = b - a := rfl

/-- A path shorter than 1.0 meter yields a zero-length (clamped) thick-line slice. -/
theorem exact_slice_short (pl : PolyLine) (h : pl.length < 1) :
    (pl.exact_slice 0 (pl.length - 1)).length = 0 := by
  have h1 : min (pl.length - 1) pl.length = pl.length - 1 := min_eq_left (by linarith)
  have h2 : max (0 : ℚ) (pl.length - 1) = 0 := max_eq_left (by linarith)
  simp only [PolyLine.exact_slice, length_sliced, h1, h2]
  norm_num

/-- For a path of length at least 1.0 meter the clamped slice is exactly `[0, len-1]`. -/
theorem exact_slice_full (pl : PolyLine) (h : 1 ≤ pl.length) :
    pl.exact_slice 0 (pl.length - 1) = PolyLine.sliced pl 0 (pl.length - 1) := by
  have h1 : min (pl.length - 1) pl.length = pl.length - 1 := min_eq_left (by linarith)
  have h2 : max (0 : ℚ) (pl.length - 1) = pl.length - 1 := max_eq_right (by linarith)
  have h3 : min (max (0 : ℚ) 0) (pl.length - 1) = 0 := by
    rw [max_self]
    exact min_eq_left (by linarith)
  simp only [PolyLine.exact_slice, h1, h2, h3]

/-- A fixed all-black color scheme used for concrete instances. -/
def cs0 : ColorScheme := fun _ => Color.rgb 0 0 0

/-- A concrete GPU-upload context. -/
def pr0 : Prerender := {}

/-- A map whose every turn is a crosswalk. -/
def map_cw : Map := { turns := fun _ => { turn_type := TurnType.Crosswalk } }

/-- A map whose every turn is a shared sidewalk corner. -/
def map_ssc : Map := { turns := fun _ => { turn_type := TurnType.SharedSidewalkCorner } }

/-- A map whose every turn is a left turn. -/
def map_left : Map := { turns := fun _ => { turn_type := TurnType.Left } }

/-- A map whose every turn is a right turn. -/
def map_right : Map := { turns := fun _ => { turn_type := TurnType.Right } }

/-- A map whose every turn is straight. -/
def map_straight : Map := { turns := fun _ => { turn_type := TurnType.Straight } }

/-- Claim C2: for every input with a pending turn of kind `Crosswalk` or
`SharedSidewalkCorner`, constructing the car sprite hits the `unreachable!` branch
(modelled as `none`): the construction aborts, never silently succeeding. -/
theorem C2_pedestrian_turn_aborts (input : DrawCarInput) (map : Map) (pr : Prerender)
    (cs : ColorScheme) (t : TurnID) (hw : input.waiting_for_turn = some t)
    (hk : (map.get_t t).turn_type = TurnType.Crosswalk ∨
      (map.get_t t).turn_type = TurnType.SharedSidewalkCorner) :
    DrawCar.new input map pr cs = none := by
  rcases hk with hk | hk <;> simp [DrawCar.new, hw, hk]

/-- An input with a pending turn, used to witness C2 on a crosswalk map. -/
def input_w2 : DrawCarInput :=
  { id := ⟨2, VehicleType.Car⟩, body := PolyLine.base ⟨2, 10⟩, waiting_for_turn := some 3,
    status := CarStatus.Moving, label := none, «on» := ⟨1⟩ }

theorem C2_witness : DrawCar.new input_w2 map_cw pr0 cs0 = none :=
  C2_pedestrian_turn_aborts input_w2 map_cw pr0 cs0 3 rfl (Or.inl rfl)

/-- Claim C5 (amended): buses get the one constant bus color whatever their status;
moving non-bus vehicles get the per-identity rotating palette color; parked non-bus
vehicles get the moving color of the same identity faded by 1.5.  (The original claim fails
for parked buses, see the counterexample.) -/
theorem C5_amended_color_selection (input : DrawCarInput) (cs : ColorScheme) :
    (input.id.vehicle_type = VehicleType.Bus →
      ∀ s : CarStatus, zoomed_color_car { input with status := s } cs
        = cs.get_def ("bus") (Color.rgb 50 133 117)) ∧
    (input.id.vehicle_type ≠ VehicleType.Bus →
      zoomed_color_car { input with status := CarStatus.Moving } cs
          = rotating_color_agents input.id.idx ∧
      zoomed_color_car { input with status := CarStatus.Parked } cs
          = (zoomed_color_car { input with status := CarStatus.Moving } cs).fade (3 / 2)) := by
  constructor
  · intro hbus s
    simp [zoomed_color_car, hbus]
  · intro hbus
    constructor <;> simp [zoomed_color_car, hbus]

/-- A parked bus: the counterexample input for C5. -/
def input_x5 : DrawCarInput :=
  { id := ⟨7, VehicleType.Bus⟩, body := PolyLine.base ⟨3, 10⟩, waiting_for_turn := none,
    status := CarStatus.Parked, label := none, «on» := ⟨0⟩ }

/-- Claim C5 fails as stated: a parked bus is a Parked vehicle, but its color is the
constant bus color, not the rotating color of the identity faded by 1.5 (nor any fade of its
own moving color). -/
theorem C5_counterexample :
    zoomed_color_car input_x5 cs0 ≠ (rotating_color_agents input_x5.id.idx).fade (3 / 2) ∧
    zoomed_color_car input_x5 cs0
      ≠ (zoomed_color_car { input_x5 with status := CarStatus.Moving } cs0).fade (3 / 2) := by
  constructor <;>
    simp [zoomed_color_car, input_x5, cs0, rotating_color_agents, ColorScheme.get_def]

/-- A moving non-bus car used to witness the amended C5. -/
def input_w5 : DrawCarInput :=
  { id := ⟨8, VehicleType.Car⟩, body := PolyLine.base ⟨5, 10⟩, waiting_for_turn := none,
    status := CarStatus.Moving, label := none, «on» := ⟨0⟩ }

theorem C5_witness :
    zoomed_color_car { input_w5 with status := CarStatus.Moving } cs0
        = rotating_color_agents input_w5.id.idx ∧
    zoomed_color_car { input_w5 with status := CarStatus.Parked } cs0
        = (zoomed_color_car { input_w5 with status := CarStatus.Moving } cs0).fade (3 / 2) :=
  (C5_amended_color_selection input_w5 cs0).2 (by simp [input_w5])

/-- Claim C8: the outline query returns the thickened boundary ribbon of the body path,
and whenever that thickening is geometrically degenerate it returns the filled body
polygon instead.  The fallback is local: `get_outline` returns a plain `Polygon`, so no
error reaches the caller. -/
theorem C8_outline_fallback (d : DrawCar) (m : Map) :
    (d.body.is_degenerate = false →
      d.get_outline m = Polygon.ribbon d.body CAR_WIDTH OUTLINE_THICKNESS) ∧
    (d.body.is_degenerate = true → d.get_outline m = d.body_polygon) := by
  constructor <;> intro h <;>
    simp [DrawCar.get_outline, PolyLine.to_thick_boundary, h]

/-- A concrete sprite with a healthy 10-meter body, used to witness C8. -/
def dw8 : DrawCar :=
  { id := ⟨3, VehicleType.Car⟩, body := PolyLine.base ⟨4, 10⟩,
    body_polygon := Polygon.new [], zorder := 0, label := none, draw_default := [] }

theorem C8_witness :
    dw8.body.is_degenerate = false ∧
    dw8.get_outline map_straight = Polygon.ribbon dw8.body CAR_WIDTH OUTLINE_THICKNESS := by
  have h : dw8.body.is_degenerate = false := by decide
  exact ⟨h, (C8_outline_fallback dw8 map_straight).1 h⟩

/-- Claim C9 (implicit): when the draw options override the color of this car, the draw
routine emits only the body polygon in the override color (never a redraw of the
prepared batch with its decorations); without an override it redraws the batch; the
label commands are appended either way. -/
theorem C9_color_override_draw (d : DrawCar) (o : DrawOptions) :
    (∀ c, o.color d.get_id = some c →
      d.draw o = DrawCmd.draw_polygon c d.body_polygon :: label_cmds d ∧
      ∀ b, DrawCmd.redraw b ∉ d.draw o) ∧
    (o.color d.get_id = none →
      d.draw o = DrawCmd.redraw d.draw_default :: label_cmds d) := by
  refine ⟨fun c hc => ⟨?_, ?_⟩, fun hc => ?_⟩
  · simp [DrawCar.draw, hc]
  · intro b
    cases hl : d.label <;>
      simp [DrawCar.draw, label_cmds, hc, hl]
  · simp [DrawCar.draw, hc]

/-- A labelled sprite used to witness C9. -/
def dw9 : DrawCar :=
  { id := ⟨5, VehicleType.Car⟩, body := PolyLine.base ⟨9, 10⟩,
    body_polygon := Polygon.new [], zorder := 0,
    label := some { line := ("42"), fg := Color.rgb 249 206 24, size := 20 },
    draw_default := [] }

/-- Draw options that override the color of every object. -/
def opts9 : DrawOptions := { color := fun _ => some (Color.rgb 1 2 3) }

theorem C9_witness :
    dw9.draw opts9 = DrawCmd.draw_polygon (Color.rgb 1 2 3) dw9.body_polygon :: label_cmds dw9 :=
  ((C9_color_override_draw dw9 opts9).1 (Color.rgb 1 2 3) rfl).1

/-- The body item is never classified as a turn arrow. -/
theorem is_arrow_car_body (c : Color) (b : PolyLine) :
    (BatchItem.poly c (car_body_polygon b)).is_arrow = false := rfl

/-- An svg icon item is never classified as a turn arrow. -/
theorem is_arrow_svg (f : String) (p : Polygon) (s : ℚ) (r : Angle) :
    (BatchItem.svg f p s r).is_arrow = false := rfl

/-- A thick-line item is never classified as a turn arrow. -/
theorem is_arrow_thick (c : Color) (pl : PolyLine) (w : ℚ) :
    (BatchItem.poly c (Polygon.thick pl w)).is_arrow = false := rfl

/-- An arrow item is classified as a turn arrow. -/
theorem is_arrow_arrow (c : Color) (pl : PolyLine) (th : ℚ) :
    (BatchItem.poly c (Polygon.arrow pl th)).is_arrow = true := rfl

/-- The body item is never classified as a brake light. -/
theorem is_brake_car_body (c : Color) (b : PolyLine) :
    (BatchItem.poly c (car_body_polygon b)).is_brake_light = false := rfl

/-- An svg icon item is never classified as a brake light. -/
theorem is_brake_svg (f : String) (p : Polygon) (s : ℚ) (r : Angle) :
    (BatchItem.svg f p s r).is_brake_light = false := rfl

/-- An arrow item is never classified as a brake light. -/
theorem is_brake_arrow (c : Color) (pl : PolyLine) (th : ℚ) :
    (BatchItem.poly c (Polygon.arrow pl th)).is_brake_light = false := rfl

/-- A thick line over an explicit point list is classified as a brake light. -/
theorem is_brake_thick_new (c : Color) (pts : List Pt2D) (w : ℚ) :
    (BatchItem.poly c (Polygon.thick (PolyLine.new pts) w)).is_brake_light = true := rfl

/-- Projections at distinct distances are distinct points. -/
theorem project_away_ne_dist {pt1 pt2 : Pt2D} {l1 l2 : ℚ} {a1 a2 : Angle} (h : l1 ≠ l2) :
    pt1.project_away l1 a1 ≠ pt2.project_away l2 a2 := by
  intro hc
  injection hc with e1 e2 e3
  exact h e2

/-- Projections at rotations by distinct degree amounts are distinct points. -/
theorem project_away_ne_rot {pt1 pt2 : Pt2D} {l1 l2 : ℚ} {a1 a2 : Angle} {g1 g2 : ℚ}
    (h : g1 ≠ g2) :
    pt1.project_away l1 (a1.rotate_degs g1) ≠ pt2.project_away l2 (a2.rotate_degs g2) := by
  intro hc
  injection hc with e1 e2 e3
  injection e3 with f1 f2
  exact h f2

/-- Claim C4: a turn-arrow decoration is produced iff a pending turn is set whose kind
is Left, Right, LaneChangeLeft or LaneChangeRight (none for Straight, and an aborted
construction produces nothing); for Left kinds the arrow runs from the +90-degree to
the -90-degree offset of the local heading 2.5 meters before the end of the path, and for
Right kinds the direction is reversed. -/
theorem C4_turn_arrow_iff (input : DrawCarInput) (map : Map) (pr : Prerender)
    (cs : ColorScheme) :
    (has_turn_arrow input map pr cs = true ↔
      ∃ t, input.waiting_for_turn = some t ∧
        ((map.get_t t).turn_type = TurnType.Left ∨
         (map.get_t t).turn_type = TurnType.Right ∨
         (map.get_t t).turn_type = TurnType.LaneChangeLeft ∨
         (map.get_t t).turn_type = TurnType.LaneChangeRight)) ∧
    (∀ t d, input.waiting_for_turn = some t →
      DrawCar.new input map pr cs = some d →
      ((map.get_t t).turn_type = TurnType.Left ∨
        (map.get_t t).turn_type = TurnType.LaneChangeLeft) →
      BatchItem.poly (cs.get_def ("turn arrow") (Color.hex ("#DF8C3D")))
          (Polygon.arrow (PolyLine.new [
            (input.body.dist_along (input.body.length - 5 / 2)).1.project_away
              ((4 / 5) * CAR_WIDTH / 2)
              ((input.body.dist_along (input.body.length - 5 / 2)).2.rotate_degs 90),
            (input.body.dist_along (input.body.length - 5 / 2)).1.project_away
              ((4 / 5) * CAR_WIDTH / 2)
              ((input.body.dist_along (input.body.length - 5 / 2)).2.rotate_degs (-90))])
            (1 / 2))
        ∈ d.draw_default) ∧
    (∀ t d, input.waiting_for_turn = some t →
      DrawCar.new input map pr cs = some d →
      ((map.get_t t).turn_type = TurnType.Right ∨
        (map.get_t t).turn_type = TurnType.LaneChangeRight) →
      BatchItem.poly (cs.get ("turn arrow"))
          (Polygon.arrow (PolyLine.new [
            (input.body.dist_along (input.body.length - 5 / 2)).1.project_away
              ((4 / 5) * CAR_WIDTH / 2)
              ((input.body.dist_along (input.body.length - 5 / 2)).2.rotate_degs (-90)),
            (input.body.dist_along (input.body.length - 5 / 2)).1.project_away
              ((4 / 5) * CAR_WIDTH / 2)
              ((input.body.dist_along (input.body.length - 5 / 2)).2.rotate_degs 90)])
            (1 / 2))
        ∈ d.draw_default) := by
  refine ⟨?_, ?_, ?_⟩
  · cases hw : input.waiting_for_turn with
    | none =>
      cases hs : input.status <;>
        simp [has_turn_arrow, DrawCar.new, hw, hs,
          is_arrow_car_body, is_arrow_svg, is_arrow_thick, is_arrow_arrow,
          Prerender.upload]
    | some t =>
      cases htt : (map.get_t t).turn_type <;>
        cases hs : input.status <;>
          simp [has_turn_arrow, DrawCar.new, hw, hs, htt,
            is_arrow_car_body, is_arrow_svg, is_arrow_thick, is_arrow_arrow,
            Prerender.upload, make_arrow_pos_neg, make_arrow_neg_pos,
            thick_line_from_angle, PolyLine.make_polygons]
  · intro t d hw hnew hk
    rcases hk with hk | hk <;>
      cases hs : input.status <;>
        (simp [DrawCar.new, hw, hk, hs, make_arrow_pos_neg, Prerender.upload] at hnew;
         all_goals (subst hnew; simp))
  · intro t d hw hnew hk
    rcases hk with hk | hk <;>
      cases hs : input.status <;>
        (simp [DrawCar.new, hw, hk, hs, make_arrow_neg_pos, Prerender.upload] at hnew;
         all_goals (subst hnew; simp))

/-- A moving car pending a turn, used to witness C4 on a left-turn map. -/
def input_w4 : DrawCarInput :=
  { id := ⟨12, VehicleType.Car⟩, body := PolyLine.base ⟨12, 10⟩, waiting_for_turn := some 4,
    status := CarStatus.Moving, label := none, «on» := ⟨0⟩ }

theorem C4_witness : has_turn_arrow input_w4 map_left pr0 cs0 = true :=
  (C4_turn_arrow_iff input_w4 map_left pr0 cs0).1.mpr ⟨4, rfl, Or.inl rfl⟩

/-- Claim C3 (amended): a brake-light decoration is produced iff a pending turn of a
car-valid kind is set (on Crosswalk/SharedSidewalkCorner the construction aborts and
produces nothing); whenever construction succeeds with a pending turn, the batch
contains the brake-light rectangle 0.5 meters along the path, of length `CAR_WIDTH`
minus a 0.2-meter gap on each side and thickness 0.3, oriented by the local heading. -/
theorem C3_amended_brake_light_iff (input : DrawCarInput) (map : Map) (pr : Prerender)
    (cs : ColorScheme) :
    (has_brake_light input map pr cs = true ↔
      ∃ t, input.waiting_for_turn = some t ∧
        (map.get_t t).turn_type ≠ TurnType.Crosswalk ∧
        (map.get_t t).turn_type ≠ TurnType.SharedSidewalkCorner) ∧
    (∀ t d, input.waiting_for_turn = some t →
      DrawCar.new input map pr cs = some d →
      BatchItem.poly (cs.get_def ("brake light") (Color.hex ("#FF1300")))
          (thick_line_from_angle (3 / 10) (CAR_WIDTH - (1 / 5) * 2)
            ((input.body.dist_along (1 / 2)).1.project_away (CAR_WIDTH / 2 - 1 / 5)
              ((input.body.dist_along (1 / 2)).2.rotate_degs (-90)))
            ((input.body.dist_along (1 / 2)).2.rotate_degs 90))
        ∈ d.draw_default) := by
  constructor
  · cases hw : input.waiting_for_turn with
    | none =>
      cases hs : input.status <;>
        simp [has_brake_light, DrawCar.new, hw, hs,
          is_brake_car_body, is_brake_svg, is_brake_arrow, is_brake_thick_new,
          Prerender.upload]
    | some t =>
      cases htt : (map.get_t t).turn_type <;>
        cases hs : input.status <;>
          simp [has_brake_light, DrawCar.new, hw, hs, htt,
            is_brake_car_body, is_brake_svg, is_brake_arrow, is_brake_thick_new,
            Prerender.upload, make_arrow_pos_neg, make_arrow_neg_pos,
            thick_line_from_angle, PolyLine.make_polygons]
  · intro t d hw hnew
    cases htt : (map.get_t t).turn_type <;>
      cases hs : input.status <;>
        (simp [DrawCar.new, hw, htt, hs, make_arrow_pos_neg, make_arrow_neg_pos,
          Prerender.upload] at hnew;
         all_goals (subst hnew; simp [thick_line_from_angle, PolyLine.make_polygons]))

/-- A pending crosswalk turn: the counterexample input for C3. -/
def input_x3 : DrawCarInput :=
  { id := ⟨6, VehicleType.Car⟩, body := PolyLine.base ⟨7, 10⟩, waiting_for_turn := some 0,
    status := CarStatus.Moving, label := none, «on» := ⟨0⟩ }

/-- Claim C3 fails as stated: this input has a pending turn, but its kind is Crosswalk,
so construction aborts and no brake light is produced. -/
theorem C3_counterexample :
    input_x3.waiting_for_turn = some 0 ∧
    has_brake_light input_x3 map_cw pr0 cs0 = false := by
  refine ⟨rfl, ?_⟩
  simp [has_brake_light, DrawCar.new, input_x3, map_cw, Map.get_t]

/-- A car pending a straight turn, used to witness the amended C3. -/
def input_w3 : DrawCarInput :=
  { id := ⟨13, VehicleType.Car⟩, body := PolyLine.base ⟨13, 10⟩, waiting_for_turn := some 1,
    status := CarStatus.Moving, label := none, «on» := ⟨0⟩ }

theorem C3_witness : has_brake_light input_w3 map_straight pr0 cs0 = true :=
  (C3_amended_brake_light_iff input_w3 map_straight pr0 cs0).1.mpr
    ⟨1, rfl, by decide, by decide⟩

/-- A zero-length path with a pending pedestrian-only turn: the counterexample input
for C1. -/
def input_x1 : DrawCarInput :=
  { id := ⟨1, VehicleType.Car⟩, body := PolyLine.base ⟨0, 0⟩, waiting_for_turn := some 0,
    status := CarStatus.Moving, label := none, «on» := ⟨0⟩ }

/-- Claim C1 fails as stated: this input has a body path of length 0 < 1, yet
construction aborts (the `unreachable!` on its pending SharedSidewalkCorner turn fires
before any geometry is finished), so it is false that no such input panics. -/
theorem C1_counterexample :
    input_x1.body.length < 1 ∧ DrawCar.new input_x1 map_ssc pr0 cs0 = none := by
  refine ⟨by decide, ?_⟩
  simp [DrawCar.new, input_x1, map_ssc, Map.get_t]

/-- Claim C1 (amended): for every input whose body path is shorter than 1.0 meter and
whose pending turn, if any, is of a car-valid kind, construction does not panic; the
thick-line slice is clamped to `[0, len]` and degenerates to length 0, leaving a
nose-only body shape. -/
theorem C1_amended_short_path_no_panic (input : DrawCarInput) (map : Map) (pr : Prerender)
    (cs : ColorScheme) (hlen : input.body.length < 1)
    (hvalid : ∀ t, input.waiting_for_turn = some t →
      (map.get_t t).turn_type ≠ TurnType.Crosswalk ∧
      (map.get_t t).turn_type ≠ TurnType.SharedSidewalkCorner) :
    (DrawCar.new input map pr cs).isSome = true ∧
    (input.body.exact_slice 0 (input.body.length - 1)).length = 0 :=
  ⟨new_isSome_of_valid input map pr cs hvalid, exact_slice_short input.body hlen⟩

/-- A parked car on a zero-length path with no pending turn, used to witness the
amended C1. -/
def input_w1 : DrawCarInput :=
  { id := ⟨0, VehicleType.Car⟩, body := PolyLine.base ⟨1, 0⟩, waiting_for_turn := none,
    status := CarStatus.Parked, label := none, «on» := ⟨0⟩ }

theorem C1_witness :
    input_w1.body.length < 1 ∧
    ((DrawCar.new input_w1 map_straight pr0 cs0).isSome = true ∧
      (input_w1.body.exact_slice 0 (input_w1.body.length - 1)).length = 0) :=
  ⟨by decide,
    C1_amended_short_path_no_panic input_w1 map_straight pr0 cs0 (by decide)
      (by intro t ht; simp [input_w1] at ht)⟩

/-- A 1-meter path with a pending left turn: the counterexample input for C10. -/
def input_x10 : DrawCarInput :=
  { id := ⟨4, VehicleType.Car⟩, body := PolyLine.base ⟨8, 1⟩, waiting_for_turn := some 0,
    status := CarStatus.Moving, label := none, «on» := ⟨0⟩ }

/-- Claim C10 fails as stated: the body path of this input is only 1 < 2.5 meters long and a
left turn is pending, yet construction completes without panic (the modelled position
lookups clamp into the path per the degeneracy rule of the spec), so the words completes-without-
panic-only-under the precondition len >= 2.5 do not hold. -/
theorem C10_counterexample :
    input_x10.body.length < 5 / 2 ∧
    (DrawCar.new input_x10 map_left pr0 cs0).isSome = true := by
  constructor
  · norm_num [input_x10, PolyLine.length]
  · exact new_isSome_of_valid input_x10 map_left pr0 cs0
      (fun t ht => by constructor <;> simp [map_left, Map.get_t])

/-- Claim C10 (amended): with a pending Left/Right/LaneChange turn, construction
evaluates positions at distances `len - 2.5` and `0.5` along the body path and builds
the arrow via an unwrapped fallible operation; with the position lookups clamped to the
path, construction completes without panic for every path length, and the arrow
error branch of the arrow construction is unreachable (both the Left and the mirrored Right arrow
lines are non-degenerate, so `make_arrow` succeeds). -/
theorem C10_amended_arrow_construction_total (input : DrawCarInput) (map : Map)
    (pr : Prerender) (cs : ColorScheme) (t : TurnID)
    (hw : input.waiting_for_turn = some t)
    (hk : (map.get_t t).turn_type = TurnType.Left ∨
      (map.get_t t).turn_type = TurnType.Right ∨
      (map.get_t t).turn_type = TurnType.LaneChangeLeft ∨
      (map.get_t t).turn_type = TurnType.LaneChangeRight) :
    (DrawCar.new input map pr cs).isSome = true ∧
    ((PolyLine.new [
        (input.body.dist_along (input.body.length - 5 / 2)).1.project_away
          ((4 / 5) * CAR_WIDTH / 2)
          ((input.body.dist_along (input.body.length - 5 / 2)).2.rotate_degs 90),
        (input.body.dist_along (input.body.length - 5 / 2)).1.project_away
          ((4 / 5) * CAR_WIDTH / 2)
          ((input.body.dist_along (input.body.length - 5 / 2)).2.rotate_degs (-90))]).make_arrow
      (1 / 2)).isSome = true ∧
    ((PolyLine.new [
        (input.body.dist_along (input.body.length - 5 / 2)).1.project_away
          ((4 / 5) * CAR_WIDTH / 2)
          ((input.body.dist_along (input.body.length - 5 / 2)).2.rotate_degs (-90)),
        (input.body.dist_along (input.body.length - 5 / 2)).1.project_away
          ((4 / 5) * CAR_WIDTH / 2)
          ((input.body.dist_along (input.body.length - 5 / 2)).2.rotate_degs 90)]).make_arrow
      (1 / 2)).isSome = true := by
  refine ⟨?_, ?_, ?_⟩
  · apply new_isSome_of_valid
    intro t2 ht2
    rw [hw] at ht2
    injection ht2 with h2
    subst h2
    rcases hk with hk | hk | hk | hk <;> constructor <;> simp [hk]
  · rw [make_arrow_pos_neg]
    rfl
  · rw [make_arrow_neg_pos]
    rfl

/-- A long path pending a right turn, used to witness the amended C10. -/
def input_w10 : DrawCarInput :=
  { id := ⟨10, VehicleType.Car⟩, body := PolyLine.base ⟨10, 20⟩, waiting_for_turn := some 2,
    status := CarStatus.Moving, label := none, «on» := ⟨0⟩ }

theorem C10_witness : (DrawCar.new input_w10 map_right pr0 cs0).isSome = true :=
  (C10_amended_arrow_construction_total input_w10 map_right pr0 cs0 2 rfl
    (Or.inr (Or.inl rfl))).1

/-- Claim C6: for a path of length at least 1.0 meter, the body polygon of the built
sprite is the geometric union of the nose quadrilateral (half-width offsets at plus and
minus 90 degrees from the boundary point, quarter-width offsets at the tip) with the
constant-width thick line over the slice `[0, len - 1]`; the clamped slice is exactly
that interval. -/
theorem C6_body_polygon_union (input : DrawCarInput) (map : Map) (pr : Prerender)
    (cs : ColorScheme) (d : DrawCar) (hlen : 1 ≤ input.body.length)
    (hnew : DrawCar.new input map pr cs = some d) :
    d.body_polygon =
      Polygon.union
        (Polygon.new [
          (input.body.dist_along (input.body.length - 1)).1.project_away (CAR_WIDTH / 2)
            ((input.body.dist_along (input.body.length - 1)).2.rotate_degs 90),
          (input.body.dist_along (input.body.length - 1)).1.project_away (CAR_WIDTH / 2)
            ((input.body.dist_along (input.body.length - 1)).2.rotate_degs (-90)),
          (input.body.dist_along input.body.length).1.project_away (CAR_WIDTH / 4)
            ((input.body.dist_along input.body.length).2.rotate_degs (-90)),
          (input.body.dist_along input.body.length).1.project_away (CAR_WIDTH / 4)
            ((input.body.dist_along input.body.length).2.rotate_degs 90)])
        ((PolyLine.sliced input.body 0 (input.body.length - 1)).make_polygons CAR_WIDTH) ∧
    input.body.exact_slice 0 (input.body.length - 1)
      = PolyLine.sliced input.body 0 (input.body.length - 1) := by
  have hs := exact_slice_full input.body hlen
  refine ⟨?_, hs⟩
  rw [new_body_polygon input map pr cs d hnew]
  simp only [car_body_polygon]
  rw [hs]

/-- The 10-meter body path used to witness C6. -/
def body_w6 : PolyLine := PolyLine.base ⟨11, 10⟩

/-- A plain moving car on `body_w6`, used to witness C6. -/
def input_w6 : DrawCarInput :=
  { id := ⟨11, VehicleType.Car⟩, body := body_w6, waiting_for_turn := none,
    status := CarStatus.Moving, label := none, «on» := ⟨0⟩ }

/-- The sprite `DrawCar::new` builds for `input_w6`. -/
def dw6 : DrawCar :=
  { id := ⟨11, VehicleType.Car⟩, body := body_w6, body_polygon := car_body_polygon body_w6,
    zorder := 0, label := none,
    draw_default := [BatchItem.poly (Color.palette 1) (car_body_polygon body_w6)] }

theorem C6_witness :
    1 ≤ input_w6.body.length ∧
    input_w6.body.exact_slice 0 (input_w6.body.length - 1)
      = PolyLine.sliced input_w6.body 0 (input_w6.body.length - 1) := by
  have hlen : 1 ≤ input_w6.body.length := by
    norm_num [input_w6, body_w6, PolyLine.length]
  have hnew : DrawCar.new input_w6 map_straight pr0 cs0 = some dw6 := by
    simp [DrawCar.new, input_w6, dw6, zoomed_color_car, rotating_color_agents,
      Prerender.upload, Traversable.get_zorder, cs0]
  exact ⟨hlen, (C6_body_polygon_union input_w6 map_straight pr0 cs0 dw6 hlen hnew).2⟩

/-- Modelled from the spec: a guaranteed lower bound on the geometric area of a
polygon.  The thick line is a stadium/rectangle shape of the given width, whose area
is at least width times length, and a geometric union covers each operand; other shapes
contribute no bound. -/
def Polygon.areaLB : Polygon → ℚ
  | .thick pl w => w * pl.length
  | .union a b => max a.areaLB b.areaLB
  | _ => 0

/-- Whether the listed corner points are pairwise distinct. -/
def distinct_pts : List Pt2D → Bool
  | [] => true
  | p :: rest => rest.all (fun q => decide (p ≠ q)) && distinct_pts rest

/-- Modelled from the spec: the non-self-intersection invariant of the data model.  A
positive-width thick line (a stadium) is simple, an explicit polygon with pairwise
distinct corners is simple, and the invariant of the spec asserts the body-outline union of
such parts is simple; arrows and ribbons are simple when built on a non-degenerate line
with positive thickness. -/
def Polygon.simple : Polygon → Bool
  | .thick _ w => decide (0 < w)
  | .new pts => distinct_pts pts
  | .union a b => a.simple && b.simple
  | .arrow pl th => !pl.is_degenerate && decide (0 < th)
  | .ribbon pl _ th => !pl.is_degenerate && decide (0 < th)

/-- Claim C7: for a path of length at least 1.0 meter, the body polygon of the built
sprite is non-self-intersecting (in the spec-modelled sense), has area at least that of
a `CAR_WIDTH`-wide rectangle of length `len - 1`, and is a deterministic function of
the input path alone: any two sprites built from inputs with equal bodies have equal
body polygons, whatever the map, color scheme or remaining input fields. -/
theorem C7_body_polygon_properties (input : DrawCarInput) (map : Map) (pr : Prerender)
    (cs : ColorScheme) (d : DrawCar) (hlen : 1 ≤ input.body.length)
    (hnew : DrawCar.new input map pr cs = some d) :
    d.body_polygon.simple = true ∧
    CAR_WIDTH * (input.body.length - 1) ≤ d.body_polygon.areaLB ∧
    (∀ input2 map2 pr2 cs2 d2, DrawCar.new input2 map2 pr2 cs2 = some d2 →
      input2.body = input.body → d2.body_polygon = d.body_polygon) := by
  have hbp := new_body_polygon input map pr cs d hnew
  refine ⟨?_, ?_, ?_⟩
  · rw [hbp]
    simp only [car_body_polygon]
    rw [exact_slice_full input.body hlen]
    have h12 : ∀ pt1 pt2 : Pt2D, ∀ l : ℚ, ∀ a1 a2 : Angle,
        pt1.project_away l (a1.rotate_degs 90) ≠ pt2.project_away l (a2.rotate_degs (-90)) :=
      fun pt1 pt2 l a1 a2 => project_away_ne_rot (by norm_num)
    have h34 : ∀ pt1 pt2 : Pt2D, ∀ l : ℚ, ∀ a1 a2 : Angle,
        pt1.project_away l (a1.rotate_degs (-90)) ≠ pt2.project_away l (a2.rotate_degs 90) :=
      fun pt1 pt2 l a1 a2 => project_away_ne_rot (by norm_num)
    have hhalf : ∀ pt1 pt2 : Pt2D, ∀ a1 a2 : Angle,
        pt1.project_away (CAR_WIDTH / 2) a1 ≠ pt2.project_away (CAR_WIDTH / 4) a2 :=
      fun pt1 pt2 a1 a2 => project_away_ne_dist (by norm_num [CAR_WIDTH])
    have hw0 : decide ((0 : ℚ) < CAR_WIDTH) = true :=
      decide_eq_true (by norm_num [CAR_WIDTH])
    simp [Polygon.simple, distinct_pts, PolyLine.make_polygons, h12, h34, hhalf, hw0]
  · rw [hbp]
    simp only [car_body_polygon]
    rw [exact_slice_full input.body hlen]
    simp [Polygon.areaLB, PolyLine.make_polygons, length_sliced]
  · intro input2 map2 pr2 cs2 d2 hnew2 hbody
    rw [new_body_polygon input2 map2 pr2 cs2 d2 hnew2, hbp, hbody]

/-- The 10-meter body path used to witness C7. -/
def body_w7 : PolyLine := PolyLine.base ⟨14, 10⟩

/-- A plain moving car on `body_w7`, used to witness C7. -/
def input_w7 : DrawCarInput :=
  { id := ⟨14, VehicleType.Car⟩, body := body_w7, waiting_for_turn := none,
    status := CarStatus.Moving, label := none, «on» := ⟨0⟩ }

/-- The sprite `DrawCar::new` builds for `input_w7`. -/
def dw7 : DrawCar :=
  { id := ⟨14, VehicleType.Car⟩, body := body_w7, body_polygon := car_body_polygon body_w7,
    zorder := 0, label := none,
    draw_default := [BatchItem.poly (Color.palette 4) (car_body_polygon body_w7)] }

theorem C7_witness :
    dw7.body_polygon.simple = true ∧
    CAR_WIDTH * (input_w7.body.length - 1) ≤ dw7.body_polygon.areaLB := by
  have hlen : 1 ≤ input_w7.body.length := by
    norm_num [input_w7, body_w7, PolyLine.length]
  have hnew : DrawCar.new input_w7 map_straight pr0 cs0 = some dw7 := by
    simp [DrawCar.new, input_w7, dw7, zoomed_color_car, rotating_color_agents,
      Prerender.upload, Traversable.get_zorder, cs0]
  have h := C7_body_polygon_properties input_w7 map_straight pr0 cs0 dw7 hlen hnew
  exact ⟨h.1, h.2.1⟩

end AbStreet
